import Mathlib

/-!
# Verification of the `node-multibootloader` page-transfer state machine

This file is a shallow embedding, in Lean 4, of `src/multibootloader.js`
(the `MultiBootloader` class), together with theorems settling the frozen
claims about its specification.

Modelling conventions:
* JS byte buffers are `List Nat`; byte values are irrelevant to the claims.
* The asynchronous callback chain of the source is embedded as a
  deterministic interpreter.  External nondeterminism is supplied by an
  explicit environment `Env`: the result of the `k`-th `serial.get` call
  (`reads k`, either a transport error or the raw `dsr` level) and the
  terminal outcome of the `k`-th Disco-Bus message send (`sends k`,
  `none` = the transport reported completion, `some e` = it reported
  error `e`).
* The page loop (`_sendPageNumber` / `_sendNextPage` / the inner
  `onToTheNextPage` closure) is a single fuel-indexed function `runLoop`
  with a `Phase` tag naming which of the three source functions is being
  entered; running out of fuel yields the distinguished outcome
  `Outcome.outOfFuel` (the source loop always terminates, so every claim
  is proved with explicitly sufficient fuel).
* The `program()` promise is embedded as `Outcome`: `resolved`,
  `rejected reason`, or `pending` when the run ends without ever settling
  the promise.
-/

namespace MultiBootloader

/-- Kind of an event emitted through the `EventEmitter` interface
(`this.emit('status', ...)` / `this.emit('error', ...)`). -/
inductive EvKind where
  | status
  | error
deriving DecidableEq, Repr

/-- An emitted event, mirroring the object built by `_emit`
(src/multibootloader.js lines 171-179): the message plus a snapshot of
`_pages.length`, `_currentPage`, `_errorAtPage` and `_programTries`. -/
structure Event where
  kind : EvKind
  message : String
  pages : Nat
  currentPage : Nat
  errorAtPage : Int
  retries : Nat
deriving DecidableEq, Repr

/-- A protocol message placed on the bus, identified by its command code:
`MSG_START = 0xF1` (payload: version major, minor), `MSG_PAGE_NUM = 0xF2`
(payload: 1-indexed page number), `MSG_PAGE_DATA = 0xF3` (payload: the
page bytes), `MSG_END = 0xF4` (empty payload). -/
inductive Msg where
  | start (major minor : Nat)
  | pageNum (n : Nat)
  | pageData (bytes : List Nat)
  | endMsg
deriving DecidableEq, Repr

/-- The mutable session fields of a `MultiBootloader` instance
(src/multibootloader.js lines 44-47): `_pages`, `_currentPage`,
`_programTries` and `_errorAtPage` (the JS sentinel `-1` is kept, so the
field is an `Int`). -/
structure Session where
  pages : List (List Nat)
  currentPage : Nat
  programTries : Nat
  errorAtPage : Int
deriving DecidableEq, Repr

/-- The session state right after the constructor ran:
`_pages = []`, `_currentPage = 0`, `_programTries = 0`, `_errorAtPage = -1`. -/
def initialSession : Session := ⟨[], 0, 0, -1⟩

/-- The resolved option set `this._opt` after the constructor applied the
defaults (`maxTries = 2`, `timeBetweenPages = 800`, `signalTimeout = 1000`,
version `0.0`). -/
structure Options where
  pageSize : Nat
  maxTries : Nat
  timeBetweenPages : Nat
  signalTimeout : Nat
  versionMajor : Nat
  versionMinor : Nat
deriving DecidableEq, Repr

/-- The external world of one run: `reads k` is what the `k`-th
`this._serial.get` callback delivers (`.error ()` = transport read
failure, `.ok dsr` = the raw DSR line level), and `sends k` is the
terminal notification of the `k`-th bus message
(`startMessage ... endMessage ... subscribe`): `none` = the complete
callback fired, `some e` = the error callback fired with `e`. -/
structure Env where
  reads : Nat → Except Unit Bool
  sends : Nat → Option String

/-- The fate of the single `program()` promise: `resolved` / `rejected`
when one of the stored `this._programPromise` callbacks was invoked,
`pending` when the run finished all its work without ever settling the
promise, `outOfFuel` when the interpreter's fuel ran out. -/
inductive Outcome where
  | resolved
  | rejected (reason : String)
  | pending
  | outOfFuel
deriving DecidableEq, Repr

/-- Observable result of (part of) a run: the protocol messages placed on
the bus in order, the events emitted in order, the promise outcome, and
the session state when the run stopped. -/
structure RunOut where
  msgs : List Msg
  events : List Event
  outcome : Outcome
  final : Session
deriving DecidableEq, Repr

/-- Build a status/error event from the current session state, mirroring
`_emit` (src/multibootloader.js lines 171-179). -/
def mkEvent (k : EvKind) (m : String) (st : Session) : Event :=
  ⟨k, m, st.pages.length, st.currentPage, st.errorAtPage, st.programTries⟩

/-- `readSignalLine` (src/multibootloader.js lines 111-122): on a
transport read error it emits an `error` event ("Could not read signal
line") and resolves `false`; otherwise it resolves the negation of the
raw `dsr` level (the signal line is active-low).  The promise never
rejects.  Returns the resolved boolean and the emitted events. -/
def readSignalLine (st : Session) (r : Except Unit Bool) : Bool × List Event :=
  match r with
  | .error _ => (false, [mkEvent .error ("Could not read signal line") st])
  | .ok dsr => (!dsr, [])

/-- The logical signal value a single `readSignalLine` call resolves
with, as a function of the raw `serial.get` result alone. -/
def signalValue (r : Except Unit Bool) : Bool :=
  match r with
  | .error _ => false
  | .ok dsr => !dsr

set_option linter.unusedVariables false in
/-- Page segmentation, mirroring the loop in `program`
(src/multibootloader.js lines 146-149):
`for (let i = 0; i < content.length; i += pageSize) pages.push(content.slice(i, i + pageSize))`.
The source loop diverges for `pageSize = 0`; the embedding returns `[]`
in that (never exercised — every claim assumes `pageSize > 0`) case to
stay total. -/
def makePages (content : List Nat) (pageSize : Nat) : List (List Nat) :=
  if h : pageSize = 0 ∨ content = [] then []
  else content.take pageSize :: makePages (content.drop pageSize) pageSize
termination_by content.length
decreasing_by
  push_neg at h
  simp only [List.length_drop]
  have hc : 0 < content.length := List.length_pos.mpr h.2
  omega

/-- `_untilSignal` (src/multibootloader.js lines 328-360): poll
`readSignalLine` with a fixed `delay = 100` ms between polls; at the
poll with counter `tries` the elapsed polling time is
`time = tries * 100`; resolve as soon as the observed value equals
`target`, keep polling while `time < signalTimeout`, otherwise reject
('timed out').  Since `readSignalLine` never rejects, the `.catch`
branch of the source is dead code and is not modelled.  Returns
(resolved-with-success?, index of the next unconsumed read, emitted
events). -/
def untilSignal (st : Session) (target : Bool) (timeout : Nat)
    (reads : Nat → Except Unit Bool) (tries ridx : Nat) :
    Bool × Nat × List Event :=
  let rd := readSignalLine st (reads ridx)
  if rd.1 = target then
    (true, ridx + 1, rd.2)
  else if h : tries * 100 < timeout then
    let rest := untilSignal st target timeout reads (tries + 1) (ridx + 1)
    (rest.1, rest.2.1, rd.2 ++ rest.2.2)
  else
    (false, ridx + 1, rd.2)
termination_by timeout - tries * 100
decreasing_by omega

/-- Which of the three page-loop functions of the source is entered next:
`_sendPageNumber` (lines 215-228), `_sendNextPage` (lines 233-250), or the
inner `onToTheNextPage` closure (lines 254-293, the post-page check). -/
inductive Phase where
  | sendPageNumber
  | sendNextPage
  | onToTheNextPage
deriving DecidableEq, Repr

/-- `_finish` (src/multibootloader.js lines 299-317).  The loop body runs
twice, each time sending an empty `MSG_END` message.  In the source the
local `complete` is still `undefined` at the moment it is passed to
`subscribe`; the assignment `complete = this._programPromise.resolve` on
the following line only rebinds the local variable and cannot change the
already-registered (absent) complete callback.  The embedding keeps this
capture faithfully: `completeCb` is `none` for both subscriptions, so a
successful send settles nothing, while an errored send invokes the
rejection with `Error writing to serial device: ...`.  The promise keeps
the first settlement. -/
def finishRun (sends : Nat → Option String) (sidx : Nat) (st : Session) : RunOut :=
  let completeCb : Option Outcome := none
  let settle : Option String → Option Outcome := fun res =>
    match res with
    | some e => some (.rejected ("Error writing to serial device: " ++ e))
    | none => completeCb
  let r1 := settle (sends sidx)
  let r2 := settle (sends (sidx + 1))
  let outcome : Outcome :=
    match r1, r2 with
    | some o, _ => o
    | none, some o => o
    | none, none => .pending
  ⟨[.endMsg, .endMsg], [], outcome, st⟩

/-- The page loop of the source, as one fuel-indexed function over the
phase being entered.  `sidx`/`ridx` count the message sends and signal
reads consumed so far.

* `.sendPageNumber` — `_sendPageNumber` (lines 215-228): increment
  `_currentPage`, send a `MSG_PAGE_NUM` message carrying it; on transport
  error reject the program promise, on completion enter `_sendNextPage`.
* `.sendNextPage` — `_sendNextPage` (lines 233-250): emit the
  `Sending page N.` status event, send the page
  `_pages[_currentPage - 1]` as a `MSG_PAGE_DATA` message; on transport
  error reject, on completion run `onToTheNextPage`.
* `.onToTheNextPage` — the closure at lines 254-293: read the signal
  line once; if it reads `true` and `_errorAtPage < 0`, record
  `_errorAtPage = _currentPage` and emit an error event; then if
  `_currentPage >= _pages.length`: with a recorded failing page either
  retry (`_programTries < maxTries`: increment `_programTries`, set
  `_currentPage = _errorAtPage`, reset `_errorAtPage = -1`, and re-enter
  `_sendNextPage` — not `_sendPageNumber`) or reject
  `Programming retry limit reached.`; with no failing page run
  `_finish`; otherwise (more pages left) wait `timeBetweenPages` and
  enter `_sendPageNumber`. -/
def runLoop (opt : Options) (env : Env) :
    Nat → Phase → Session → Nat → Nat → RunOut
  | 0, _, st, _, _ => ⟨[], [], .outOfFuel, st⟩
  | fuel + 1, .sendPageNumber, st, sidx, ridx =>
    let st1 : Session := { st with currentPage := st.currentPage + 1 }
    let m : Msg := .pageNum st1.currentPage
    match env.sends sidx with
    | some e => ⟨[m], [], .rejected ("Error writing to serial device: " ++ e), st1⟩
    | none =>
      let r := runLoop opt env fuel .sendNextPage st1 (sidx + 1) ridx
      ⟨m :: r.msgs, r.events, r.outcome, r.final⟩
  | fuel + 1, .sendNextPage, st, sidx, ridx =>
    let page := st.pages.getD (st.currentPage - 1) []
    let ev := mkEvent .status ("Sending page " ++ toString st.currentPage ++ ".") st
    let m : Msg := .pageData page
    match env.sends sidx with
    | some e => ⟨[m], [ev], .rejected ("Error writing to serial device: " ++ e), st⟩
    | none =>
      let r := runLoop opt env fuel .onToTheNextPage st (sidx + 1) ridx
      ⟨m :: r.msgs, ev :: r.events, r.outcome, r.final⟩
  | fuel + 1, .onToTheNextPage, st, sidx, ridx =>
    let rd := readSignalLine st (env.reads ridx)
    let flagging := rd.1 = true ∧ st.errorAtPage < 0
    let st1 : Session :=
      if flagging then { st with errorAtPage := (st.currentPage : Int) } else st
    let evs1 : List Event :=
      rd.2 ++
        (if flagging then
          [mkEvent .error
            ("A node reported an error verifying page " ++ toString st1.errorAtPage ++ ".") st1]
        else [])
    if st1.pages.length ≤ st1.currentPage then
      if st1.errorAtPage > -1 then
        if st1.programTries < opt.maxTries then
          let st2 : Session :=
            { st1 with
              programTries := st1.programTries + 1
              currentPage := st1.errorAtPage.toNat
              errorAtPage := -1 }
          let r := runLoop opt env fuel .sendNextPage st2 sidx (ridx + 1)
          ⟨r.msgs, evs1 ++ r.events, r.outcome, r.final⟩
        else
          ⟨[], evs1, .rejected ("Programming retry limit reached."), st1⟩
      else
        let r := finishRun env.sends sidx st1
        ⟨r.msgs, evs1 ++ r.events, r.outcome, r.final⟩
    else
      let r := runLoop opt env fuel .sendPageNumber st1 sidx (ridx + 1)
      ⟨r.msgs, evs1 ++ r.events, r.outcome, r.final⟩

/-- The state update performed at the top of `program`
(src/multibootloader.js lines 146-149): the freshly segmented pages are
*pushed onto* `this._pages`; no session field is reinitialised. -/
def programEntry (st : Session) (content : List Nat) (pageSize : Nat) : Session :=
  { st with pages := st.pages ++ makePages content pageSize }

/-- A whole `program(content)` run (src/multibootloader.js lines
131-163 plus `_sendStartMessage`, lines 184-210), for content that was
read successfully: segment the content into pages (appending to
`_pages`), emit the `Program file read.` status event, wait for the
signal line to become `true` (rejecting with the ready-timeout reason on
failure), send the `MSG_START` message with the version bytes (rejecting
on transport error), wait for the signal line to become `false`
(rejecting with the same ready-timeout reason), then enter the page loop
at `_sendPageNumber`. -/
def runProgram (opt : Options) (env : Env) (st0 : Session)
    (content : List Nat) (fuel : Nat) : RunOut :=
  let st := programEntry st0 content opt.pageSize
  let ev0 := mkEvent .status
    ("Program file read. " ++ toString content.length ++ " bytes, "
      ++ toString st.pages.length ++ " pages.") st
  let w1 := untilSignal st true opt.signalTimeout env.reads 0 0
  if w1.1 = false then
    ⟨[], ev0 :: w1.2.2,
      .rejected ("Timed out waiting for devices to be ready. (i.e. signal line)"), st⟩
  else
    let mStart : Msg := .start opt.versionMajor opt.versionMinor
    match env.sends 0 with
    | some e =>
      ⟨[mStart], ev0 :: w1.2.2, .rejected ("Error writing to serial device: " ++ e), st⟩
    | none =>
      let w2 := untilSignal st false opt.signalTimeout env.reads 0 w1.2.1
      if w2.1 = false then
        ⟨[mStart], ev0 :: (w1.2.2 ++ w2.2.2),
          .rejected ("Timed out waiting for devices to be ready. (i.e. signal line)"), st⟩
      else
        let r := runLoop opt env fuel .sendPageNumber st 1 w2.2.1
        ⟨mStart :: r.msgs, ev0 :: (w1.2.2 ++ w2.2.2 ++ r.events), r.outcome, r.final⟩

/-- The raw `version` sub-object passed to the constructor; each field
may be left undefined. -/
structure RawVersion where
  major : Option Nat := none
  minor : Option Nat := none

/-- The raw `options` object passed to the constructor; every field may
be left undefined. -/
structure RawOptions where
  pageSize : Option Nat := none
  version : Option RawVersion := none
  maxTries : Option Nat := none
  timeBetweenPages : Option Nat := none
  signalTimeout : Option Nat := none

/-- An observable side effect the constructor performs on the transport:
the only one is `this._disco.connectWith(serial)`
(src/multibootloader.js line 68).  The constructor performs no file I/O
at all. -/
inductive CtorAction where
  | connectWith
deriving DecidableEq

/-- The `MultiBootloader` constructor (src/multibootloader.js lines
39-83): initialise the session fields, throw
`Page size was not set` when `options.pageSize` is undefined — before
the defaults are applied and before `connectWith` runs — then apply the
defaults (`maxTries = 2`, `timeBetweenPages = 800`,
`signalTimeout = 1000`) and normalise the version (each of
`major`/`minor` defaults to `0` independently).  Returns the constructed
state or the thrown error, paired with the list of transport actions
performed. -/
def construct (o : RawOptions) : Except String (Session × Options) × List CtorAction :=
  match o.pageSize with
  | none => (.error ("Page size was not set"), [])
  | some ps =>
    let v := o.version.getD {}
    let opt : Options :=
      { pageSize := ps
        maxTries := o.maxTries.getD 2
        timeBetweenPages := o.timeBetweenPages.getD 800
        signalTimeout := o.signalTimeout.getD 1000
        versionMajor := v.major.getD 0
        versionMinor := v.minor.getD 0 }
    (.ok (initialSession, opt), [.connectWith])

/-- The option set of the repository's own test fixture
(`pageSize = 10`, `maxTries = 2`, remaining fields at their constructor
defaults, version `0.0`). -/
def defaultOpts : Options := ⟨10, 2, 800, 1000, 0, 0⟩

/-- A fully cooperative environment: the signal line is ready
(`dsr = false`, logical `true`) at the very first poll, then stays
`dsr = true` forever — so the post-start wait succeeds at once and no
post-page check ever reads a flagged error — and every message send
completes successfully. -/
def envHappy : Env := ⟨fun i => .ok (decide (1 ≤ i)), fun _ => none⟩

/-- An environment whose every post-page signal read reports an error:
the handshake reads (index 0: ready, index 1: busy) succeed at the first
poll, and every later read — all of which are post-page checks — returns
`dsr = false`, i.e. logical `true` (a node flagging a verification
error).  Every message send completes successfully. -/
def envAllError : Env := ⟨fun i => .ok (decide (i = 1)), fun _ => none⟩

/-- An environment flagging a verification error exactly once: the
handshake reads (index 0, 1) succeed at the first poll, the post-page
check after the first page (read index 2) reads logical `true`
(error), and all later reads are logical `false`.  Every message send
completes successfully. -/
def envOneError : Env := ⟨fun i => .ok (decide (i ≠ 0 ∧ i ≠ 2)), fun _ => none⟩

/-- Whether the message at position `i` respects the announcement
discipline: a `PAGE_DATA` message is acceptable only when the message
directly before it is a `PAGE_NUMBER` message. -/
def announcedAt (msgs : List Msg) (i : Nat) : Bool :=
  match msgs.getD i Msg.endMsg with
  | .pageData _ =>
    match i with
    | 0 => false
    | j + 1 =>
      match msgs.getD j Msg.endMsg with
      | .pageNum _ => true
      | _ => false
  | _ => true

/-- Whether every `PAGE_DATA` message of a trace is immediately preceded
by a `PAGE_NUMBER` message. -/
def pageDataAnnounced (msgs : List Msg) : Bool :=
  (List.range msgs.length).all (announcedAt msgs)

theorem readSignalLine_fst (st : Session) (r : Except Unit Bool) :
    (readSignalLine st r).1 = signalValue r := by
  cases r <;> rfl

theorem makePages_flatten (c : List Nat) (p : Nat) :
    0 < p → (makePages c p).flatten = c := by
  induction c, p using makePages.induct with
  | case1 c p h =>
      intro hp
      rw [makePages, dif_pos h]
      rcases h with h | h
      · omega
      · simp [h]
  | case2 c p h ih =>
      intro hp
      rw [makePages, dif_neg h]
      simp only [List.flatten_cons]
      rw [ih hp]
      exact List.take_append_drop p c

theorem makePages_length (c : List Nat) (p : Nat) :
    0 < p → (makePages c p).length = (c.length + p - 1) / p := by
  induction c, p using makePages.induct with
  | case1 c p h =>
      intro hp
      rw [makePages, dif_pos h]
      rcases h with h | h
      · omega
      · subst h
        simp
        exact (Nat.div_eq_of_lt (by omega)).symm
  | case2 c p h ih =>
      intro hp
      have h2 := h
      push_neg at h2
      have hc : 0 < c.length := List.length_pos.mpr h2.2
      rw [makePages, dif_neg h]
      simp only [List.length_cons]
      rw [ih hp, List.length_drop]
      rcases le_or_lt c.length p with hle | hlt
      · have h0 : c.length - p = 0 := by omega
        have h1 : (c.length + p - 1) / p = 1 :=
          Nat.div_eq_of_lt_le (by omega) (by omega)
        rw [h0, Nat.div_eq_of_lt (by omega), h1]
      · have e1 : c.length - p + p - 1 = c.length - 1 := by omega
        have e2 : c.length + p - 1 = (c.length - 1) + p := by omega
        rw [e1, e2, Nat.add_div_right _ hp]

theorem makePages_sizes (c : List Nat) (p : Nat) :
    ∀ pg ∈ makePages c p, pg.length ≤ p := by
  induction c, p using makePages.induct with
  | case1 c p h => rw [makePages, dif_pos h]; simp
  | case2 c p h ih =>
      rw [makePages, dif_neg h]
      intro pg hpg
      rcases List.mem_cons.mp hpg with hEq | hmem
      · subst hEq
        simp only [List.length_take]
        omega
      · exact ih pg hmem

theorem makePages_sizes_exact (c : List Nat) (p : Nat) :
    ∀ i, i + 1 < (makePages c p).length → ((makePages c p).getD i []).length = p := by
  induction c, p using makePages.induct with
  | case1 c p h => rw [makePages, dif_pos h]; simp
  | case2 c p h ih =>
      rw [makePages, dif_neg h]
      intro i hi
      cases i with
      | zero =>
          simp only [List.getD_cons_zero]
          have hne : makePages (c.drop p) p ≠ [] := by
            intro h0
            rw [h0] at hi
            simp at hi
          have hdrop : c.drop p ≠ [] := by
            intro h0
            rw [makePages, dif_pos (Or.inr h0)] at hne
            exact hne rfl
          have hplen : p < c.length := by
            by_contra hcon
            exact hdrop (List.drop_eq_nil_of_le (by omega))
          simp [List.length_take]
          omega
      | succ i =>
          simp only [List.getD_cons_succ]
          apply ih
          simp only [List.length_cons] at hi
          omega

theorem makePages_35_10 (c : List Nat) (h : c.length = 35) :
    makePages c 10
      = [c.take 10, (c.drop 10).take 10, (c.drop 20).take 10, (c.drop 30).take 10] := by
  have h1 : c ≠ [] := List.ne_nil_of_length_pos (by omega)
  have h2 : c.drop 10 ≠ [] := List.ne_nil_of_length_pos (by simp; omega)
  have h3 : c.drop 20 ≠ [] := List.ne_nil_of_length_pos (by simp; omega)
  have h4 : c.drop 30 ≠ [] := List.ne_nil_of_length_pos (by simp; omega)
  rw [makePages, dif_neg (by simp [h1]), makePages, dif_neg (by simp [h2]),
      makePages, dif_neg (by simp [h3]), makePages, dif_neg (by simp [h4]),
      makePages, dif_pos (Or.inr (by apply List.drop_eq_nil_of_le; simp; omega))]
  simp [List.drop_drop]

theorem untilSignal_never (st : Session) (target : Bool) (timeout : Nat)
    (reads : Nat → Except Unit Bool)
    (hnever : ∀ i, signalValue (reads i) ≠ target) (tries ridx : Nat) :
    (untilSignal st target timeout reads tries ridx).1 = false := by
  induction tries, ridx using untilSignal.induct st target timeout reads with
  | case1 tries ridx rd hmatch =>
      rw [readSignalLine_fst] at hmatch
      exact absurd hmatch (hnever ridx)
  | case2 tries ridx rd hne h ih =>
      rw [untilSignal]
      split
      · rename_i hmatch
        exact absurd hmatch hne
      · simp only [dif_pos h]
        simpa using ih
  | case3 tries ridx rd hne h =>
      rw [untilSignal]
      split
      · rename_i hmatch
        exact absurd hmatch hne
      · simp only [dif_neg h]

theorem untilSignal_fail (st : Session) (target : Bool) (timeout : Nat)
    (reads : Nat → Except Unit Bool) (tries ridx : Nat) :
    ∀ n evs, untilSignal st target timeout reads tries ridx = (false, n, evs) →
      ridx < n ∧ timeout ≤ (tries + (n - ridx) - 1) * 100 ∧
      (∀ i, ridx ≤ i → i < n → signalValue (reads i) ≠ target) ∧
      (∀ i, ridx ≤ i → i + 1 < n → (tries + (i - ridx)) * 100 < timeout) := by
  induction tries, ridx using untilSignal.induct st target timeout reads with
  | case1 tries ridx rd hmatch =>
      intro n evs heq
      rw [untilSignal] at heq
      split at heq
      · simp at heq
      · rename_i hne
        exact absurd hmatch hne
  | case2 tries ridx rd hne h ih =>
      intro n evs heq
      rw [untilSignal] at heq
      split at heq
      · rename_i hmatch
        exact absurd hmatch hne
      · simp only [dif_pos h, Prod.mk.injEq] at heq
        obtain ⟨h1, h2, -⟩ := heq
        have hrest : untilSignal st target timeout reads (tries + 1) (ridx + 1)
            = (false, n, (untilSignal st target timeout reads (tries + 1) (ridx + 1)).2.2) := by
          rw [← h1, ← h2]
        obtain ⟨hlt, htime, hsig, hpoll⟩ := ih n _ hrest
        refine ⟨by omega, by omega, ?_, ?_⟩
        · intro i hle hlt2
          rcases eq_or_lt_of_le hle with hEq | hGt
          · subst hEq
            rw [← readSignalLine_fst st]
            exact hne
          · exact hsig i (by omega) hlt2
        · intro i hle hlt2
          rcases eq_or_lt_of_le hle with hEq | hGt
          · subst hEq
            simpa using h
          · have hp2 := hpoll i (by omega) (by omega)
            have hfactor : tries + 1 + (i - (ridx + 1)) = tries + (i - ridx) := by omega
            rw [hfactor] at hp2
            exact hp2
  | case3 tries ridx rd hne h =>
      intro n evs heq
      rw [untilSignal] at heq
      split at heq
      · rename_i hmatch
        exact absurd hmatch hne
      · simp only [dif_neg h, Prod.mk.injEq] at heq
        obtain ⟨-, h2, -⟩ := heq
        refine ⟨by omega, by omega, ?_, by omega⟩
        intro i hle hlt2
        have hieq : i = ridx := by omega
        subst hieq
        rw [← readSignalLine_fst st]
        exact hne

theorem runLoop_tries_le (opt : Options) (env : Env) :
    ∀ fuel ph st sidx ridx, st.programTries ≤ opt.maxTries →
      (runLoop opt env fuel ph st sidx ridx).final.programTries ≤ opt.maxTries := by
  intro fuel
  induction fuel with
  | zero =>
      intro ph st sidx ridx hb
      simpa [runLoop] using hb
  | succ fuel ih =>
      intro ph st sidx ridx hb
      cases ph with
      | sendPageNumber =>
          rw [runLoop]
          cases hsend : env.sends sidx with
          | some e => simpa using hb
          | none =>
              simp only []
              exact ih .sendNextPage { st with currentPage := st.currentPage + 1 } (sidx + 1) ridx hb
      | sendNextPage =>
          rw [runLoop]
          cases hsend : env.sends sidx with
          | some e => simpa using hb
          | none =>
              simp only []
              exact ih .onToTheNextPage st (sidx + 1) ridx hb
      | onToTheNextPage =>
          rw [runLoop]
          split
          · split
            · split
              · split
                · rename_i hflag hlast herr hlim
                  refine ih .sendNextPage _ sidx (ridx + 1) ?_
                  simp only [Session.programTries] at hlim ⊢
                  omega
                · simpa using hb
              · simp only [finishRun]
                simpa using hb
            · refine ih .sendPageNumber _ sidx (ridx + 1) ?_
              simpa using hb
          · split
            · split
              · split
                · rename_i hflag hlast herr hlim
                  refine ih .sendNextPage _ sidx (ridx + 1) ?_
                  simpa using hlim
                · simpa using hb
              · simp only [finishRun]
                simpa using hb
            · refine ih .sendPageNumber _ sidx (ridx + 1) ?_
              simpa using hb

/-- Claim C3 (confirmed): for every byte content of length `L` and every
page size `P > 0`, segmenting produces `⌈L/P⌉ = (L + P - 1) / P` pages,
no page exceeds `P` bytes, every page except possibly the last has
exactly `P` bytes, zero-length content yields zero pages, and the
in-order concatenation of all pages equals the original content
exactly. -/
theorem segmentation_spec (c : List Nat) (p : Nat) (hp : 0 < p) :
    (makePages c p).length = (c.length + p - 1) / p ∧
    (∀ pg ∈ makePages c p, pg.length ≤ p) ∧
    (∀ i, i + 1 < (makePages c p).length → ((makePages c p).getD i []).length = p) ∧
    makePages ([] : List Nat) p = [] ∧
    (makePages c p).flatten = c :=
  ⟨makePages_length c p hp, makePages_sizes c p, makePages_sizes_exact c p,
    by rw [makePages, dif_pos (Or.inr rfl)], makePages_flatten c p hp⟩

/-- Witness for `segmentation_spec` at the repository's own test image
(the 35 bytes `0,…,34`) and page size `10`: the hypothesis `0 < 10`
holds and the page count is `⌈35/10⌉`. -/
theorem segmentation_spec_witness :
    0 < 10 ∧
    (makePages (List.range 35) 10).length = ((List.range 35).length + 10 - 1) / 10 :=
  ⟨by decide, (segmentation_spec (List.range 35) 10 (by decide)).1⟩

/-- Claim C9 (confirmed): constructing a bootloader whose options do not
define `pageSize` always throws `Page size was not set`, and the throw
happens before any transport action is performed (the action list of the
error path is empty; the constructor performs no file I/O at all);
construction with `pageSize` defined never throws. -/
theorem construct_requires_pageSize (o : RawOptions) :
    ((construct o).1 = .error ("Page size was not set") ↔ o.pageSize = none) ∧
    (o.pageSize = none → (construct o).2 = []) ∧
    (o.pageSize ≠ none →
      (construct o).1.isOk = true ∧ (construct o).2 = [CtorAction.connectWith]) := by
  cases hps : o.pageSize with
  | none => simp [construct, hps]
  | some ps => simp [construct, hps, Except.isOk, Except.toBool]

/-- Witness for `construct_requires_pageSize` at the fully-undefined
option object: construction throws and performs no transport action. -/
theorem construct_requires_pageSize_witness :
    (construct ⟨none, none, none, none, none⟩).1 = .error ("Page size was not set") ∧
    (construct ⟨none, none, none, none, none⟩).2 = [] :=
  ⟨(construct_requires_pageSize ⟨none, none, none, none, none⟩).1.mpr rfl,
    (construct_requires_pageSize ⟨none, none, none, none, none⟩).2.1 rfl⟩

/-- Claim C10 (corrected) — counterexample to the claim as stated: the
claim's clause that no operation ever clears or resets the session
fields after construction is false.  At this concrete state (two pages,
last page just sent, page 1 recorded as failing, no retries yet) one
step of the post-page check — the retry transition — puts `_errorAtPage`
back to its construction-time value `-1`, i.e. clears the failing-page
marker. -/
theorem session_fields_counterexample :
    (⟨[[0], [1]], 2, 0, 1⟩ : Session).errorAtPage = 1 ∧
    initialSession.errorAtPage = -1 ∧
    (runLoop ⟨1, 2, 800, 1000, 0, 0⟩ ⟨fun _ => .ok true, fun _ => none⟩ 1
        .onToTheNextPage ⟨[[0], [1]], 2, 0, 1⟩ 0 0).final.errorAtPage = -1 := by
  decide

/-- Claim C10 (corrected) — amended: a second `program()` call appends
the new content's pages to the page list left over from the previous run
instead of replacing it, and the current page index, retry counter and
failing-page marker retain their values from the previous run —
`program()` itself never clears or resets any session field.  (The
original claim's stronger clause that no operation at all ever clears
them fails: the retry transition clears the failing-page marker, see the
counterexample.) -/
theorem program_entry_appends (st : Session) (content : List Nat) (p : Nat) :
    (programEntry st content p).pages = st.pages ++ makePages content p ∧
    (programEntry st content p).currentPage = st.currentPage ∧
    (programEntry st content p).programTries = st.programTries ∧
    (programEntry st content p).errorAtPage = st.errorAtPage :=
  ⟨rfl, rfl, rfl, rfl⟩

/-- Claim C2 (code bug): on the finalization path the source does send
exactly two `END` messages and an error on either send rejects the run,
but the claim's assertion that the second send's completion resolves the
caller's `program()` outcome does not hold of the code: in `_finish` the
local `complete` is still `undefined` at the moment `subscribe(...)`
runs, and the assignment `complete = this._programPromise.resolve` on
the following line only rebinds the local variable, so no completion
callback is ever registered — when both `END` sends complete
successfully the outcome remains pending forever instead of resolving
exactly once. -/
theorem finish_never_resolves (sends : Nat → Option String) (sidx : Nat) (st : Session)
    (h1 : sends sidx = none) (h2 : sends (sidx + 1) = none) :
    finishRun sends sidx st = ⟨[.endMsg, .endMsg], [], .pending, st⟩ := by
  simp [finishRun, h1, h2]

/-- Witness for `finish_never_resolves`: with every send completing
successfully, finalization emits the two `END` messages and leaves the
promise pending. -/
theorem finish_never_resolves_witness :
    (fun _ : Nat => (none : Option String)) 0 = none ∧
    finishRun (fun _ => none) 0 initialSession
      = ⟨[.endMsg, .endMsg], [], .pending, initialSession⟩ :=
  ⟨rfl, finish_never_resolves (fun _ => none) 0 initialSession rfl rfl⟩

/-- Claim C6 (confirmed): in every run in which the signal line never
reads logically ready, the `program()` outcome is rejected with the
ready-timeout reason and no protocol message at all (no START,
PAGE_NUMBER, PAGE_DATA or END) is placed on the bus. -/
theorem never_ready_rejects_without_messages (opt : Options) (env : Env) (st0 : Session)
    (content : List Nat) (fuel : Nat)
    (hnever : ∀ i, signalValue (env.reads i) = false) :
    (runProgram opt env st0 content fuel).msgs = [] ∧
    (runProgram opt env st0 content fuel).outcome
      = .rejected ("Timed out waiting for devices to be ready. (i.e. signal line)") := by
  have hfalse : (untilSignal (programEntry st0 content opt.pageSize) true
      opt.signalTimeout env.reads 0 0).1 = false :=
    untilSignal_never _ true opt.signalTimeout env.reads
      (fun i => by simp [hnever i]) 0 0
  refine ⟨?_, ?_⟩ <;> simp [runProgram, hfalse]

/-- Witness for `never_ready_rejects_without_messages`: with the `dsr`
level pinned high (logical not-ready) no message is ever sent. -/
theorem never_ready_rejects_without_messages_witness :
    (∀ i, signalValue (Env.reads ⟨fun _ => .ok true, fun _ => none⟩ i) = false) ∧
    (runProgram defaultOpts ⟨fun _ => .ok true, fun _ => none⟩ initialSession
      (List.range 35) 0).msgs = [] :=
  ⟨fun _ => rfl,
    (never_ready_rejects_without_messages defaultOpts ⟨fun _ => .ok true, fun _ => none⟩
      initialSession (List.range 35) 0 (fun _ => rfl)).1⟩

/-- Claim C8 (confirmed): `_untilSignal` polls at the fixed
`delay = 100` ms interval — the poll with counter `tries` runs after
`tries * 100` ms of accumulated waiting —, resolves successfully at the
very first poll when the observed value already equals the target, and
rejects with a timeout only at a poll whose accumulated waiting time has
reached `timeoutMs` (so the wall-clock time elapsed at the rejection,
which additionally includes the positive duration of the reads
themselves, exceeds `timeoutMs`), the observed state never having
equaled the target; every non-final poll was taken because its
accumulated waiting time was still below `timeoutMs`. -/
theorem awaitSignal_contract (st : Session) (target : Bool) (timeout : Nat)
    (reads : Nat → Except Unit Bool) :
    (signalValue (reads 0) = target →
      untilSignal st target timeout reads 0 0
        = (true, 1, (readSignalLine st (reads 0)).2)) ∧
    (∀ n evs, untilSignal st target timeout reads 0 0 = (false, n, evs) →
      1 ≤ n ∧ timeout ≤ (n - 1) * 100 ∧
      (∀ i, i + 1 < n → i * 100 < timeout) ∧
      (∀ i, i < n → signalValue (reads i) ≠ target)) := by
  constructor
  · intro hm
    rw [untilSignal]
    have hrd : (readSignalLine st (reads 0)).1 = target := by
      rw [readSignalLine_fst]
      exact hm
    simp [hrd]
  · intro n evs heq
    obtain ⟨h1, h2, h3, h4⟩ := untilSignal_fail st target timeout reads 0 0 n evs heq
    refine ⟨by omega, by simpa using h2, ?_, ?_⟩
    · intro i hi
      simpa using h4 i (by omega) (by omega)
    · intro i hi
      exact h3 i (by omega) hi

/-- Witness for `awaitSignal_contract`: with the line already at the
ready level, the wait resolves at the first poll after exactly one
read. -/
theorem awaitSignal_contract_witness :
    signalValue (Env.reads ⟨fun _ => .ok false, fun _ => none⟩ 0) = true ∧
    untilSignal initialSession true 1000 (Env.reads ⟨fun _ => .ok false, fun _ => none⟩) 0 0
      = (true, 1,
         (readSignalLine initialSession (Env.reads ⟨fun _ => .ok false, fun _ => none⟩ 0)).2) :=
  ⟨rfl, (awaitSignal_contract initialSession true 1000
    (Env.reads ⟨fun _ => .ok false, fun _ => none⟩)).1 rfl⟩

/-- Claim C7 (corrected) — counterexample to the clause that a wait
toward either target keeps polling on a transport read error: with
target `false` (the wait entered after the START message), a read error
at the very first poll makes the wait terminate immediately —
`readSignalLine` downgrades the error to `false`, which equals the
target, so the wait resolves successfully after consuming exactly one
read instead of continuing to poll. -/
theorem wait_read_error_counterexample :
    untilSignal initialSession false 1000 (fun _ => .error ()) 0 0
      = (true, 1, [mkEvent .error ("Could not read signal line") initialSession]) := by
  simp [untilSignal, readSignalLine]

/-- Claim C7 (corrected) — amended: whenever a signal-line read fails at
the transport level, `readSignalLine` emits an observer-visible error
event and resolves `false` instead of propagating the failure; a wait
toward the ready target `true` therefore treats the failure as
"not ready" and — while the timeout budget is not exhausted — simply
continues polling with the next read; a wait toward target `false`,
however, sees the downgraded value equal to its target and terminates
successfully (see the counterexample). -/
theorem read_error_downgraded_amended (st : Session) (timeout : Nat)
    (reads : Nat → Except Unit Bool) (tries ridx : Nat)
    (hread : reads ridx = .error ()) :
    readSignalLine st (reads ridx)
      = (false, [mkEvent .error ("Could not read signal line") st]) ∧
    (tries * 100 < timeout →
      untilSignal st true timeout reads tries ridx
        = ((untilSignal st true timeout reads (tries + 1) (ridx + 1)).1,
           (untilSignal st true timeout reads (tries + 1) (ridx + 1)).2.1,
           mkEvent .error ("Could not read signal line") st
             :: (untilSignal st true timeout reads (tries + 1) (ridx + 1)).2.2)) := by
  constructor
  · rw [hread]
    rfl
  · intro ht
    rw [untilSignal]
    simp [hread, readSignalLine, dif_pos ht]

/-- Witness for `read_error_downgraded_amended`: a wait toward `true`
whose first read errors emits the error event and goes on to the second
poll. -/
theorem read_error_downgraded_amended_witness :
    (fun _ : Nat => (Except.error () : Except Unit Bool)) 0 = .error () ∧
    untilSignal initialSession true 1000 (fun _ => .error ()) 0 0
      = ((untilSignal initialSession true 1000 (fun _ => .error ()) 1 1).1,
         (untilSignal initialSession true 1000 (fun _ => .error ()) 1 1).2.1,
         mkEvent .error ("Could not read signal line") initialSession
           :: (untilSignal initialSession true 1000 (fun _ => .error ()) 1 1).2.2) :=
  ⟨rfl, (read_error_downgraded_amended initialSession 1000 (fun _ => .error ()) 0 0 rfl).2
    (by decide)⟩

set_option maxHeartbeats 2000000 in
/-- Claim C4 (confirmed): in a run with a 35-byte image and page size 10
where the signal line never flags an error (environment `envHappy`:
handshake succeeds at the first polls, every post-page read is logical
`false`), 4 pages of sizes 10, 10, 10, 5 are produced, and the
PAGE_NUMBER values sent are 1, 2, 3, 4 in ascending order, each
immediately followed by a PAGE_DATA message whose payload is the page
starting at byte offset `(pageNumber - 1) * pageSize` of the original
content. -/
theorem happy_run_trace (c : List Nat) (h : c.length = 35) :
    (programEntry initialSession c 10).pages.map List.length = [10, 10, 10, 5] ∧
    (runProgram defaultOpts envHappy initialSession c 20).msgs
      = [.start 0 0,
         .pageNum 1, .pageData ((c.drop ((1 - 1) * 10)).take 10),
         .pageNum 2, .pageData ((c.drop ((2 - 1) * 10)).take 10),
         .pageNum 3, .pageData ((c.drop ((3 - 1) * 10)).take 10),
         .pageNum 4, .pageData ((c.drop ((4 - 1) * 10)).take 10),
         .endMsg, .endMsg] := by
  have hp := makePages_35_10 c h
  constructor
  · simp [programEntry, initialSession, hp, List.length_take, List.length_drop, h]
  · simp [runProgram, programEntry, initialSession, defaultOpts, envHappy, hp,
          untilSignal, readSignalLine, runLoop, finishRun]

/-- Witness for `happy_run_trace` at the repository's own 35-byte test
image `0,…,34`. -/
theorem happy_run_trace_witness :
    (List.range 35).length = 35 ∧
    (programEntry initialSession (List.range 35) 10).pages.map List.length = [10, 10, 10, 5] :=
  ⟨by decide, (happy_run_trace (List.range 35) (by decide)).1⟩

set_option maxHeartbeats 4000000 in
/-- Claim C5 (confirmed): when every post-page signal read reports an
error on every pass (environment `envAllError`) and `maxTries = 2`, the
run is rejected with the retry-limit reason exactly when the retry
counter has reached 2 (the final session records `_programTries = 2`),
the full message trace consists of the initial pass followed by exactly
two retry passes — so no retry pass beyond the second is ever attempted
— and the retry counter can never exceed `maxTries` from any state that
respects the bound. -/
theorem persistent_error_retry_limit (c : List Nat) (h : c.length = 35) :
    defaultOpts.maxTries = 2 ∧
    (runProgram defaultOpts envAllError initialSession c 40).outcome
      = .rejected ("Programming retry limit reached.") ∧
    (runProgram defaultOpts envAllError initialSession c 40).final.programTries = 2 ∧
    (runProgram defaultOpts envAllError initialSession c 40).msgs
      = [.start 0 0,
         .pageNum 1, .pageData (c.take 10),
         .pageNum 2, .pageData ((c.drop 10).take 10),
         .pageNum 3, .pageData ((c.drop 20).take 10),
         .pageNum 4, .pageData ((c.drop 30).take 10),
         .pageData (c.take 10),
         .pageNum 2, .pageData ((c.drop 10).take 10),
         .pageNum 3, .pageData ((c.drop 20).take 10),
         .pageNum 4, .pageData ((c.drop 30).take 10),
         .pageData (c.take 10),
         .pageNum 2, .pageData ((c.drop 10).take 10),
         .pageNum 3, .pageData ((c.drop 20).take 10),
         .pageNum 4, .pageData ((c.drop 30).take 10)] ∧
    (∀ fuel ph st sidx ridx, st.programTries ≤ defaultOpts.maxTries →
      (runLoop defaultOpts envAllError fuel ph st sidx ridx).final.programTries
        ≤ defaultOpts.maxTries) := by
  have hp := makePages_35_10 c h
  refine ⟨rfl, ?_, ?_, ?_,
    fun fuel ph st sidx ridx hb =>
      runLoop_tries_le defaultOpts envAllError fuel ph st sidx ridx hb⟩
  all_goals
    simp [runProgram, programEntry, initialSession, defaultOpts, envAllError, hp,
          untilSignal, readSignalLine, runLoop, finishRun]

/-- Witness for `persistent_error_retry_limit` at the repository's own
35-byte test image `0,…,34`. -/
theorem persistent_error_retry_limit_witness :
    (List.range 35).length = 35 ∧
    (runProgram defaultOpts envAllError initialSession (List.range 35) 40).outcome
      = .rejected ("Programming retry limit reached.") :=
  ⟨by decide, (persistent_error_retry_limit (List.range 35) (by decide)).2.1⟩

set_option maxHeartbeats 2000000 in
/-- Claim C1 (corrected) — counterexample to the clause that after the
retry transition every page of the retry pass, including the first, is
announced by a PAGE_NUMBER message before its PAGE_DATA message: in this
concrete run (15-byte image, page size 10, a verification error flagged
once after page 1) the retry pass opens with the PAGE_DATA message of
the failing page immediately after the PAGE_DATA message of page 2, with
no PAGE_NUMBER in between — the trace violates the announcement
discipline. -/
theorem retry_unannounced_counterexample :
    (runProgram defaultOpts envOneError initialSession (List.range 15) 20).msgs
      = [.start 0 0,
         .pageNum 1, .pageData ((List.range 15).take 10),
         .pageNum 2, .pageData (((List.range 15).drop 10).take 10),
         .pageData ((List.range 15).take 10),
         .pageNum 2, .pageData (((List.range 15).drop 10).take 10),
         .endMsg, .endMsg] ∧
    pageDataAnnounced
      (runProgram defaultOpts envOneError initialSession (List.range 15) 20).msgs = false := by
  have hp : makePages (List.range 15) 10
      = [(List.range 15).take 10, ((List.range 15).drop 10).take 10] := by
    rw [makePages, dif_neg (by decide), makePages, dif_neg (by decide),
        makePages, dif_pos (Or.inr (by decide))]
  have hmsgs : (runProgram defaultOpts envOneError initialSession (List.range 15) 20).msgs
      = [.start 0 0,
         .pageNum 1, .pageData ((List.range 15).take 10),
         .pageNum 2, .pageData (((List.range 15).drop 10).take 10),
         .pageData ((List.range 15).take 10),
         .pageNum 2, .pageData (((List.range 15).drop 10).take 10),
         .endMsg, .endMsg] := by
    simp [runProgram, programEntry, initialSession, defaultOpts, envOneError, hp,
          untilSignal, readSignalLine, runLoop, finishRun]
  refine ⟨hmsgs, ?_⟩
  rw [hmsgs]
  decide

/-- Claim C1 (corrected) — amended: when the post-page check on the last
page finds a recorded failing page and the retry counter is below the
configured maximum, the machine resets the current page index to the
first failing page, increments the retry counter and clears the
failing-page marker — but it then re-enters `_sendNextPage` (the
PAGE_DATA send), not `_sendPageNumber`: the retry pass resumes at the
first recorded failing page, whose data is re-sent without a fresh
PAGE_NUMBER announcement, while each of the following pages of the
retry pass again goes through `_sendPageNumber` first. -/
theorem retry_reenters_page_data (opt : Options) (env : Env) (fuel : Nat)
    (st : Session) (sidx ridx : Nat) (dsr : Bool)
    (hread : env.reads ridx = .ok dsr)
    (hlast : st.pages.length ≤ st.currentPage)
    (herr : st.errorAtPage > -1)
    (htries : st.programTries < opt.maxTries) :
    runLoop opt env (fuel + 1) .onToTheNextPage st sidx ridx
      = runLoop opt env fuel .sendNextPage
          { st with
            programTries := st.programTries + 1
            currentPage := st.errorAtPage.toNat
            errorAtPage := -1 } sidx (ridx + 1) ∧
    (∀ st2 sidx2 ridx2,
      (runLoop opt env (fuel + 1) .sendNextPage st2 sidx2 ridx2).msgs.head?
        = some (.pageData (st2.pages.getD (st2.currentPage - 1) []))) := by
  constructor
  · have hflag : ¬((!dsr) = true ∧ st.errorAtPage < 0) := by
      rintro ⟨-, hlt⟩
      omega
    rw [runLoop, hread]
    simp only [readSignalLine, if_neg hflag, if_pos hlast, if_pos herr, if_pos htries]
    simp
  · intro st2 sidx2 ridx2
    rw [runLoop]
    cases hsend : env.sends sidx2 with
    | some e => simp
    | none => simp

/-- Witness for `retry_reenters_page_data` at a concrete two-page state
whose last page was just sent with page 1 recorded as failing: the
post-page check re-enters the page-data send with the rewound and
cleared session. -/
theorem retry_reenters_page_data_witness :
    Env.reads ⟨fun _ => .ok true, fun _ => none⟩ 0 = .ok true ∧
    runLoop defaultOpts ⟨fun _ => .ok true, fun _ => none⟩ 2 .onToTheNextPage
        ⟨[[0], [1]], 2, 0, 1⟩ 0 0
      = runLoop defaultOpts ⟨fun _ => .ok true, fun _ => none⟩ 1 .sendNextPage
          ⟨[[0], [1]], 1, 1, -1⟩ 0 1 :=
  ⟨rfl,
    (retry_reenters_page_data defaultOpts ⟨fun _ => .ok true, fun _ => none⟩ 1
      ⟨[[0], [1]], 2, 0, 1⟩ 0 0 true rfl (by decide) (by decide) (by decide)).1⟩

end MultiBootloader
